import Mathlib

/-!
# Verification of the `wt` multi-repository worktree orchestration engine

Shallow embedding of the Mattermost dual-repository worktree code
(`internal/mattermost.go`, the current version carried in the repository
snapshot as `src/unnamed/part_012`, together with `internal/config.go` and
`cmd/mattermost.go` alias `src/unnamed/part_009`).

Modelling conventions, used uniformly below:
* Paths are plain strings; `filepath.Join a b` is modelled as `a ++ "/" ++ b`.
* The filesystem is the list of existing paths (directories, files and
  symlinks alike); file contents only matter where a function reads them, and
  there the content is supplied as part of the function's input view.
* External effects (git subprocesses, file copies, symlink syscalls, the
  localhost bind probe, the random source) are parameters: a boolean oracle
  records whether the effectful step succeeds, and the probe / random source
  are supplied as functions.  The embedded control flow mirrors the Go source
  line by line.
* Error strings are kept close to the Go `fmt.Errorf` formats but without
  the surrounding quote characters.
-/

namespace WT

/-! ## Branch-name sanitization (`internal/config.go`, `sanitizeBranchName` /
exported as `SanitizeBranchName`)

The Go code uses `strings.NewReplacer` with nine single-character patterns,
which is exactly a character-wise map. -/

def sanitizeChar (c : Char) : Char :=
  if c = '/' ∨ c = '\\' ∨ c = ':' ∨ c = '*' ∨ c = '?' ∨ c = '\"' ∨
     c = '<' ∨ c = '>' ∨ c = '|' then '-' else c

def SanitizeBranchName (branch : String) : String :=
  String.mk (branch.data.map sanitizeChar)

/-- Models `strings.HasPrefix s p`: strings are character sequences, so prefix
testing is list-prefix testing on the character data. -/
def hasPrefixStr (s p : String) : Bool :=
  p.data.isPrefixOf s.data

/-! ## `MattermostConfig` (`internal/mattermost.go`) -/

structure MattermostConfig where
  WorkspaceRoot : String
  MattermostPath : String
  EnterprisePath : String
  WorktreeBasePath : String
  ServerPort : Int
  MetricsPort : Int
deriving DecidableEq

/-- Models `(*MattermostConfig).GetMattermostWorktreePath`: the worktree directory
for a branch is `WorktreeBasePath/mattermost-<sanitized branch>`. -/
def GetMattermostWorktreePath (mc : MattermostConfig) (branch : String) : String :=
  mc.WorktreeBasePath ++ "/" ++ ("mattermost-" ++ SanitizeBranchName branch)

/-! ## Generic JSON documents

`updateConfigPorts` parses `config.json` into `map[string]interface{}`; we
model parsed JSON trees directly.  JSON numbers are modelled as integers
(the config values the code manipulates are ports and the claims do not
depend on fractional numbers).  A Go map cannot hold duplicate keys, so a
parsed object is an association list in which lookups and updates act on the
first occurrence of a key. -/

inductive Json where
  | null : Json
  | bool (b : Bool) : Json
  | num (n : Int) : Json
  | str (s : String) : Json
  | arr (elems : List Json) : Json
  | obj (fields : List (String × Json)) : Json

/-- Reading `m[k]` on a Go `map[string]interface{}`. -/
def lookupKey : List (String × Json) → String → Option Json
  | [], _ => none
  | (k', v') :: rest, k => if k' = k then some v' else lookupKey rest k

/-- Writing `m[k] = v` on a Go `map[string]interface{}`. -/
def setKey : List (String × Json) → String → Json → List (String × Json)
  | [], k, v => [(k, v)]
  | (k', v') :: rest, k, v =>
      if k' = k then (k, v) :: rest else (k', v') :: setKey rest k v

/-! ## Config mutator (`updateConfigPorts`, part_012 lines 552-591)

The Go function reads the file, unmarshals, mutates, and writes back.  The
read/parse step is represented by the caller handing over the parsed tree
(a non-object top level makes `json.Unmarshal` into a map fail, which the
function surfaces as an error).  The mutation is get-or-create on the two
known subtrees followed by three leaf writes. -/

def portString (port : Int) : String := ":" ++ toString port

def siteURLString (port : Int) : String := "http://localhost:" ++ toString port

/-- The `serviceSettings, ok := config[k].(map[string]interface{})` pattern:
the existing subtree if it is an object, a fresh empty one if it is absent,
null or mistyped. -/
def getOrEmptyObj (config : List (String × Json)) (k : String) : List (String × Json) :=
  match lookupKey config k with
  | some (Json.obj fields) => fields
  | _ => []

/-- The in-memory mutation performed by `updateConfigPorts` on the parsed
top-level object. -/
def setPortsObj (config : List (String × Json)) (serverPort metricsPort : Int) :
    List (String × Json) :=
  let serviceSettings := getOrEmptyObj config "ServiceSettings"
  let serviceSettings := setKey serviceSettings "ListenAddress" (Json.str (portString serverPort))
  let serviceSettings := setKey serviceSettings "SiteURL" (Json.str (siteURLString serverPort))
  let config := setKey config "ServiceSettings" (Json.obj serviceSettings)
  let metricsSettings := getOrEmptyObj config "MetricsSettings"
  let metricsSettings := setKey metricsSettings "ListenAddress" (Json.str (portString metricsPort))
  setKey config "MetricsSettings" (Json.obj metricsSettings)

/-- Models `updateConfigPorts` on an already-read document: a top level that is not a
JSON object cannot be unmarshalled into `map[string]interface{}` and errors;
an object is mutated by `setPortsObj`. -/
def updateConfigPorts (doc : Json) (serverPort metricsPort : Int) : Except String Json :=
  match doc with
  | Json.obj fields => Except.ok (Json.obj (setPortsObj fields serverPort metricsPort))
  | _ => Except.error "json: cannot unmarshal value into Go value of type map"

/-! ## Port constants and reserved-port computation (part_012 lines 16-38,
703-748) -/

def PortRangeStart : Int := 8100
def PortRangeEnd : Int := 8999
def MainRepoPort : Int := 8065
def MetricsPortOffset : Int := 2
def PortRandomRetries : Nat := 50

/-- Models `ExcludedPorts`: the main repository server port and its metrics port. -/
def ExcludedPorts : List Int := [MainRepoPort, MainRepoPort + 2]

structure PortPair where
  ServerPort : Int
  MetricsPort : Int
deriving DecidableEq

/-- Models `fmt.Sscanf(s, ":%d", &port)`: the string must start with a colon
followed by an optionally signed decimal number; on any mismatch the target
stays `0`. -/
def parseDecimal (cs : List Char) : Option Int :=
  match cs with
  | '-' :: rest =>
      if rest.takeWhile Char.isDigit = [] then none
      else some (-(Int.ofNat (String.toNat! (String.mk (rest.takeWhile Char.isDigit)))))
  | _ =>
      if cs.takeWhile Char.isDigit = [] then none
      else some (Int.ofNat (String.toNat! (String.mk (cs.takeWhile Char.isDigit))))

def parseListenPort (s : String) : Int :=
  match s.data with
  | ':' :: rest => (parseDecimal rest).getD 0
  | _ => 0

/-- The `json.Unmarshal` of one `map[string]interface{}` struct field: absent
or null fields give the nil map (modelled `some none`), an object gives the
map, any other JSON type is a type error failing the whole unmarshal. -/
def unmarshalSettingsField (fields : List (String × Json)) (key : String) :
    Option (Option (List (String × Json))) :=
  match lookupKey fields key with
  | none => some none
  | some Json.null => some none
  | some (Json.obj m) => some (some m)
  | some _ => none

/-- Models `ExtractPortPairFromConfig` on the (attempted) read+parse result of a
config file: `none` stands for an unreadable or unparsable file.  On any
unmarshal failure the zero pair is returned; otherwise each listen address is
scanned with `":%d"`. -/
def ExtractPortPairFromConfig (doc : Option Json) : PortPair :=
  match doc with
  | none => ⟨0, 0⟩
  | some (Json.obj fields) =>
      match unmarshalSettingsField fields "ServiceSettings",
            unmarshalSettingsField fields "MetricsSettings" with
      | some serviceSettings, some metricsSettings =>
          let serverPort :=
            match serviceSettings with
            | some m =>
                match lookupKey m "ListenAddress" with
                | some (Json.str a) => parseListenPort a
                | _ => 0
            | none => 0
          let metricsPort :=
            match metricsSettings with
            | some m =>
                match lookupKey m "ListenAddress" with
                | some (Json.str a) => parseListenPort a
                | _ => 0
            | none => 0
          ⟨serverPort, metricsPort⟩
      | _, _ => ⟨0, 0⟩
  | some _ => ⟨0, 0⟩

/-- The port-relevant view of one entry of `ListWorktrees`' result: whether
its path passes `IsMattermostDualWorktree`, and the read+parse result of
`<path>/mattermost-*/server/config/config.json` for the first `mattermost-`
prefixed subdirectory (`none` when the directory listing fails, no such
subdirectory exists, or the file cannot be read or parsed — all of which
contribute no ports in the Go code). -/
structure WorktreePortView where
  isDual : Bool
  mmConfig : Option Json

/-- Models `if portPair.ServerPort > 0 { reserved[portPair.ServerPort] = true }`. -/
def addServerPort (reserved : List Int) (pair : PortPair) : List Int :=
  if pair.ServerPort > 0 then reserved ++ [pair.ServerPort] else reserved

/-- Models `if portPair.MetricsPort > 0 { reserved[portPair.MetricsPort] = true }`. -/
def addMetricsPort (reserved : List Int) (pair : PortPair) : List Int :=
  if pair.MetricsPort > 0 then reserved ++ [pair.MetricsPort] else reserved

/-- One iteration of the `GetReservedPorts` loop: a non-dual worktree
contributes nothing; otherwise the extracted server and metrics ports are
recorded when positive. -/
def reservePortsStep (reserved : List Int) (wt : WorktreePortView) : List Int :=
  if wt.isDual then
    match wt.mmConfig with
    | some doc =>
        addMetricsPort (addServerPort reserved (ExtractPortPairFromConfig (some doc)))
          (ExtractPortPairFromConfig (some doc))
    | none => reserved
  else reserved

/-- Models `GetReservedPorts` (part_012 lines 712-748): the fixed exclusions plus
every positive recorded server/metrics port of every dual worktree. -/
def GetReservedPorts (existingWorktrees : List WorktreePortView) : List Int :=
  existingWorktrees.foldl reservePortsStep ExcludedPorts

/-- Models `isPortPairAvailable` (part_012 lines 818-832).  `probe` is the
environment's answer to `IsPortAvailable` (the transient localhost bind). -/
def isPortPairAvailable (probe : Int → Bool) (serverPort : Int) (reserved : List Int) : Bool :=
  let metricsPort := serverPort + MetricsPortOffset
  if reserved.contains serverPort || reserved.contains metricsPort then false
  else if !(probe serverPort) || !(probe metricsPort) then false
  else true

/-- First available candidate of a list, or `none`. -/
def firstAvail (avail : Int → Bool) : List Int → Option Int
  | [] => none
  | c :: cs => if avail c then some c else firstAvail avail cs

/-- Models `GetAvailablePortsWithRand` (part_012 lines 844-880).  The random source
is the stream of `rng.Intn(portRangeSize)` results: draw `i` is
`draws i % portRangeSize`; the phase-2 start offset is the draw taken right
after the `PortRandomRetries` phase-1 draws. -/
def GetAvailablePortsWithRand (existingWorktrees : List WorktreePortView)
    (draws : Nat → Nat) (probe : Int → Bool) : Int × Int :=
  let reserved := GetReservedPorts existingWorktrees
  let maxServerPort := PortRangeEnd - MetricsPortOffset
  let portRangeSize := (maxServerPort - PortRangeStart + 1).toNat
  let avail := fun c => isPortPairAvailable probe c reserved
  let phase1 := (List.range PortRandomRetries).map
    (fun i => PortRangeStart + Int.ofNat (draws i % portRangeSize))
  match firstAvail avail phase1 with
  | some candidatePort => (candidatePort, candidatePort + MetricsPortOffset)
  | none =>
      let startOffset := draws PortRandomRetries % portRangeSize
      let phase2 := (List.range portRangeSize).map
        (fun i => PortRangeStart + Int.ofNat ((startOffset + i) % portRangeSize))
      match firstAvail avail phase2 with
      | some candidatePort => (candidatePort, candidatePort + MetricsPortOffset)
      | none => (0, 0)

/-! ## Worktree classification (`IsMattermostDualWorktree` / `isGitWorktree`,
part_012 lines 142-190)

Classification is a pure function of the directory listing of the candidate
path together with, for each entry, the status of its `.git` child.  A
`.git` child is either absent (or unreadable, which the code treats the
same), a regular file with some content, or a directory. -/

inductive GitMarker where
  | absent : GitMarker
  | file (content : String) : GitMarker
  | dir : GitMarker
deriving DecidableEq

structure DirEntry where
  name : String
  isDir : Bool
  marker : GitMarker
deriving DecidableEq

/-- Models `isGitWorktree`: a regular `.git` file must start with `gitdir:`; a `.git`
directory also qualifies (the main repository case). -/
def isGitWorktree (e : DirEntry) : Bool :=
  match e.marker with
  | GitMarker.absent => false
  | GitMarker.file content => hasPrefixStr content "gitdir:"
  | GitMarker.dir => true

/-- Models `IsMattermostDualWorktree` over a directory listing (`none` = `os.ReadDir`
failed). -/
def IsMattermostDualWorktree (listing : Option (List DirEntry)) : Bool :=
  match listing with
  | none => false
  | some entries =>
      let hasMattermost := entries.any (fun e =>
        e.isDir && hasPrefixStr e.name "mattermost-" && isGitWorktree e)
      let hasEnterprise := entries.any (fun e =>
        e.isDir && !hasPrefixStr e.name "mattermost-" &&
          hasPrefixStr e.name "enterprise-" && isGitWorktree e)
      hasMattermost && hasEnterprise

/-! ## The orchestration world

State touched by the dual-worktree orchestrator: the set of existing
filesystem paths and, per repository, the branch and worktree-bookkeeping
state that the issued git commands consult and modify. -/

abbrev FS := List String

/-- Tests whether `p` is the directory `dir` itself or lies underneath it. -/
def pathUnder (dir p : String) : Bool :=
  p == dir || hasPrefixStr p (dir ++ "/")

/-- Models `os.RemoveAll dir`. -/
def removeAllFS (dir : String) (fs : FS) : FS :=
  fs.filter (fun p => !(pathUnder dir p))

/-- Models `os.MkdirAll p` / `os.Symlink _ p`: ensure the path exists. -/
def mkdirFS (p : String) (fs : FS) : FS :=
  if fs.contains p then fs else fs ++ [p]

/-- The git-visible state of one repository: local branches, remote-tracking
branches (names without the `origin/` qualifier), the branch that
`GetDefaultBranch` detects, and the worktree bookkeeping (registered worktree
paths). -/
structure RepoState where
  localBranches : List String
  remoteBranches : List String
  defaultBranch : String
  worktrees : List String
deriving DecidableEq

structure World where
  fs : FS
  mattermost : RepoState
  enterprise : RepoState
deriving DecidableEq

/-- Models `checkBranchExists` (`git rev-parse --verify --quiet <branch>`). -/
def checkBranchExists (r : RepoState) (branch : String) : Bool :=
  r.localBranches.contains branch

/-- Models `checkRemoteBranchExists` (`git rev-parse --verify --quiet origin/<branch>`). -/
def checkRemoteBranchExists (r : RepoState) (branch : String) : Bool :=
  r.remoteBranches.contains branch

/-- Models `git -C <repo> worktree prune`: bookkeeping entries whose path no longer
exists are dropped. -/
def pruneRepo (fs : FS) (r : RepoState) : RepoState :=
  { r with worktrees := r.worktrees.filter (fun p => fs.contains p) }

/-- Successful `git worktree add`: the path is registered in the repository's
bookkeeping and appears on disk; the `--track -b` / `-b` modes additionally
create the local branch. -/
def registerWorktree (r : RepoState) (branch : String) (createsBranch : Bool)
    (worktreePath : String) : RepoState :=
  { r with
    worktrees := r.worktrees ++ [worktreePath],
    localBranches :=
      if createsBranch && !r.localBranches.contains branch then
        r.localBranches ++ [branch]
      else r.localBranches }

/-- Issuing the chosen `git worktree add` command; `addOk` is the oracle for
whether the git subprocess succeeds. -/
def runWorktreeAdd (addOk : Bool) (fs : FS) (r : RepoState) (branch : String)
    (createsBranch : Bool) (worktreePath : String) : Except String (RepoState × FS) :=
  if addOk then
    Except.ok (registerWorktree r branch createsBranch worktreePath, mkdirFS worktreePath fs)
  else Except.error "git worktree add failed"

/-- Models `createWorktreeForRepo` (part_012 lines 311-349): attach to a local
branch, else track the remote branch, else create from the base branch after
verifying it locally and then as `origin/<base>`; if neither form of the base
exists the creation fails. -/
def createWorktreeForRepo (addOk : Bool) (fs : FS) (r : RepoState) (repoName : String)
    (branch baseBranch worktreePath : String) : Except String (RepoState × FS) :=
  if checkBranchExists r branch then
    runWorktreeAdd addOk fs r branch false worktreePath
  else if checkRemoteBranchExists r branch then
    runWorktreeAdd addOk fs r branch true worktreePath
  else
    if checkBranchExists r baseBranch then
      runWorktreeAdd addOk fs r branch true worktreePath
    else if checkRemoteBranchExists r baseBranch then
      runWorktreeAdd addOk fs r branch true worktreePath
    else
      Except.error ("base branch " ++ baseBranch ++ " not found in " ++ repoName ++
        " (tried local and origin/" ++ baseBranch ++ ")")

/-- Models `removeWorktreeFromRepo` with `-f`, as invoked from the rollback path:
the unit is unregistered and its directory tree removed. -/
def removeWorktreeFromRepo (fs : FS) (r : RepoState) (worktreePath : String) :
    RepoState × FS :=
  ({ r with worktrees := r.worktrees.filter (fun p => p ≠ worktreePath) },
   removeAllFS worktreePath fs)

/-- Success oracle for the effectful steps of `CreateMattermostDualWorktree`,
in program order: base-file copy, the two `git worktree add` subprocesses,
the two `os.Symlink` calls, and the mapped-file copy. -/
structure CreateOracle where
  copyBaseOk : Bool
  addMattermostOk : Bool
  addEnterpriseOk : Bool
  symlinkMattermostOk : Bool
  symlinkEnterpriseOk : Bool
  copyMappedOk : Bool
deriving DecidableEq

def allOk (ora : CreateOracle) : Prop :=
  ora.copyBaseOk = true ∧ ora.addMattermostOk = true ∧ ora.addEnterpriseOk = true ∧
  ora.symlinkMattermostOk = true ∧ ora.symlinkEnterpriseOk = true ∧ ora.copyMappedOk = true

/-- First phase of the `cleanup` closure (part_012 lines 215-221):
force-remove whichever units were created, mattermost first. -/
def removalStage (mmPath entPath : String)
    (serverWorktreeCreated enterpriseWorktreeCreated : Bool) (w : World) : World :=
  let w1 :=
    if serverWorktreeCreated then
      let (r, fs) := removeWorktreeFromRepo w.fs w.mattermost mmPath
      { w with mattermost := r, fs := fs }
    else w
  if enterpriseWorktreeCreated then
    let (r, fs) := removeWorktreeFromRepo w1.fs w1.enterprise entPath
    { w1 with enterprise := r, fs := fs }
  else w1

/-- The `cleanup` closure of `CreateMattermostDualWorktree` (part_012 lines
214-229): force-remove whichever units were created, prune both repositories'
bookkeeping, then recursively delete the logical worktree directory. -/
def cleanupCreate (targetDir mmPath entPath : String)
    (serverWorktreeCreated enterpriseWorktreeCreated : Bool) (w : World) : World :=
  let w2 := removalStage mmPath entPath serverWorktreeCreated enterpriseWorktreeCreated w
  let w3 := { w2 with
    mattermost := pruneRepo w2.fs w2.mattermost,
    enterprise := pruneRepo w2.fs w2.enterprise }
  { w3 with fs := removeAllFS targetDir w3.fs }

/-- Models `CreateMattermostDualWorktree` (part_012 lines 193-308).  The base-file
copy and mapped-file copy only place content inside `targetDir`, which the
path-level state does not track individually; their success/failure comes
from the oracle.  The final `updateConfigPorts` step is non-fatal in the
source (a failure merely prints a warning) and does not touch the modelled
state, so it is not represented. -/
def CreateMattermostDualWorktree (mc : MattermostConfig) (ora : CreateOracle)
    (w : World) (branch baseBranch : String) : World × Except String String :=
  let targetDir := GetMattermostWorktreePath mc branch
  if w.fs.contains targetDir then
    (w, Except.error ("worktree directory already exists: " ++ targetDir))
  else
    let sanitizedBranch := SanitizeBranchName branch
    let mmPath := targetDir ++ "/" ++ ("mattermost-" ++ sanitizedBranch)
    let entPath := targetDir ++ "/" ++ ("enterprise-" ++ sanitizedBranch)
    let w := { w with
      mattermost := pruneRepo w.fs w.mattermost,
      enterprise := pruneRepo w.fs w.enterprise }
    let w := { w with fs := mkdirFS targetDir w.fs }
    if !ora.copyBaseOk then
      (cleanupCreate targetDir mmPath entPath false false w,
       Except.error "failed to copy base files")
    else
      let baseBranch := if baseBranch = "" then w.mattermost.defaultBranch else baseBranch
      match createWorktreeForRepo ora.addMattermostOk w.fs w.mattermost "mattermost"
          branch baseBranch mmPath with
      | Except.error e =>
          (cleanupCreate targetDir mmPath entPath false false w,
           Except.error ("failed to create mattermost worktree: " ++ e))
      | Except.ok (mmRepo, fs1) =>
        let w := { w with mattermost := mmRepo, fs := fs1 }
        match createWorktreeForRepo ora.addEnterpriseOk w.fs w.enterprise "enterprise"
            branch baseBranch entPath with
        | Except.error e =>
            (cleanupCreate targetDir mmPath entPath true false w,
             Except.error ("failed to create enterprise worktree: " ++ e))
        | Except.ok (entRepo, fs2) =>
          let w := { w with enterprise := entRepo, fs := fs2 }
          if !ora.symlinkMattermostOk then
            (cleanupCreate targetDir mmPath entPath true true w,
             Except.error "failed to create mattermost symlink")
          else
            let w := { w with fs := mkdirFS (targetDir ++ "/" ++ "mattermost") w.fs }
            if !ora.symlinkEnterpriseOk then
              (cleanupCreate targetDir mmPath entPath true true w,
               Except.error "failed to create enterprise symlink")
            else
              let w := { w with fs := mkdirFS (targetDir ++ "/" ++ "enterprise") w.fs }
              if !ora.copyMappedOk then
                (cleanupCreate targetDir mmPath entPath true true w,
                 Except.error "failed to copy additional files")
              else
                (w, Except.ok targetDir)

/-! ## `RunMattermostCheckout` (cmd, part_009 lines 13-88)

The shell-integration protocol lines are the modelled output: the
`__WT_CD__:` directory-switch marker and the `__WT_CMD__:` post-setup
command marker (informational prints are not part of the protocol).  The
port auto-selection consults `ListWorktrees` + `GetAvailablePorts`; its
result in the ambient environment is the `autoPorts` parameter. -/

def CDMarker : String := "__WT_CD__:"
def CMDMarker : String := "__WT_CMD__:"

/-- Models `isGitRepo`: the `.git` entry exists under the path. -/
def isGitRepoFS (fs : FS) (path : String) : Bool :=
  fs.contains (path ++ "/" ++ ".git")

/-- Models `(*MattermostConfig).ValidateMattermostSetup`: both repositories must be
git repositories, and the worktree base directory is created if absent. -/
def ValidateMattermostSetup (mc : MattermostConfig) (w : World) :
    World × Except String Unit :=
  if !isGitRepoFS w.fs mc.MattermostPath then
    (w, Except.error ("mattermost repository not found at " ++ mc.MattermostPath))
  else if !isGitRepoFS w.fs mc.EnterprisePath then
    (w, Except.error ("enterprise repository not found at " ++ mc.EnterprisePath))
  else
    ({ w with fs := mkdirFS mc.WorktreeBasePath w.fs }, Except.ok ())

/-- Models `RunMattermostCheckout`: validate, short-circuit to the existing worktree
if its directory exists, otherwise resolve ports and create.  Returns the
final world, the emitted protocol marker lines in order, and the result. -/
def RunMattermostCheckout (mc : MattermostConfig) (ora : CreateOracle)
    (autoPorts : Int × Int) (w : World) (branch baseBranch : String)
    (serverPort metricsPort : Int) : World × List String × Except String Unit :=
  match ValidateMattermostSetup mc w with
  | (w', Except.error e) => (w', [], Except.error e)
  | (w', Except.ok _) =>
    let worktreePath := GetMattermostWorktreePath mc branch
    if w'.fs.contains worktreePath then
      (w', [CDMarker ++ worktreePath], Except.ok ())
    else
      let serverPort := if serverPort = 0 then autoPorts.1 else serverPort
      let metricsPort := if metricsPort = 0 then autoPorts.2 else metricsPort
      let serverPort := if serverPort = 0 then 8065 else serverPort
      let metricsPort := if metricsPort = 0 then 8067 else metricsPort
      let mc' := { mc with ServerPort := serverPort, MetricsPort := metricsPort }
      match CreateMattermostDualWorktree mc' ora w' branch baseBranch with
      | (w'', Except.error e) => (w'', [], Except.error e)
      | (w'', Except.ok createdPath) =>
          (w'',
           [CDMarker ++ createdPath,
            CMDMarker ++ ("cd " ++ createdPath ++ "/server && make setup-go-work")],
           Except.ok ())

/-! ## Removal (`RemoveMattermostDualWorktree`, part_012 lines 594-644, and
`DeleteBranchFromRepos`, lines 663-688)

For the removal error-propagation claims the relevant view of the world is:
whether the worktree directory exists, whether it classifies as dual, the
`mattermost-` / `enterprise-` prefixed subdirectory names found by the
directory scan, and the outcome of each `git worktree remove` subprocess
(`none` = success, `some msg` = the command failed with `msg`).  The first
returned component logs which unit removals were attempted, in order. -/

def RemoveMattermostDualWorktree (existsDir isDual : Bool)
    (mmUnit entUnit : Option String) (removeResult : String → Option String) :
    List String × Except String Unit :=
  if !existsDir then ([], Except.error "worktree not found")
  else if !isDual then ([], Except.error "not a Mattermost dual-repo worktree")
  else
    match mmUnit with
    | some mmName =>
        (match removeResult mmName with
         | some err => ([mmName], Except.error ("failed to remove mattermost worktree: " ++ err))
         | none =>
            match entUnit with
            | some entName =>
                (match removeResult entName with
                 | some err =>
                     ([mmName, entName],
                      Except.error ("failed to remove enterprise worktree: " ++ err))
                 | none => ([mmName, entName], Except.ok ()))
            | none => ([mmName], Except.ok ()))
    | none =>
        match entUnit with
        | some entName =>
            (match removeResult entName with
             | some err =>
                 ([entName], Except.error ("failed to remove enterprise worktree: " ++ err))
             | none => ([entName], Except.ok ()))
        | none => ([], Except.ok ())

/-- Models `DeleteBranchFromRepos`: both `git branch -D` commands always run; their
failure outputs are collected and surfaced together.  The log records the
repositories on which the deletion was attempted. -/
def DeleteBranchFromRepos (mmDeleteErr entDeleteErr : Option String) :
    List String × Except String Unit :=
  let errors :=
    (match mmDeleteErr with
     | some out => ["mattermost: " ++ out]
     | none => []) ++
    (match entDeleteErr with
     | some out => ["enterprise: " ++ out]
     | none => [])
  (["mattermost", "enterprise"],
   if errors.isEmpty then Except.ok ()
   else Except.error ("failed to delete branches: " ++ String.intercalate "; " errors))

/-! ## Derived notions used in the theorem statements -/

def exceptIsOk {α : Type} : Except String α → Bool
  | Except.ok _ => true
  | Except.error _ => false

/-- The branch can be materialized in the repository: it exists locally, on
the remote, or the base branch does (locally or as `origin/<base>`) so a new
branch can be cut from it — exactly the non-error conditions of
`createWorktreeForRepo`. -/
def branchResolvable (r : RepoState) (branch base : String) : Bool :=
  checkBranchExists r branch || checkRemoteBranchExists r branch ||
  checkBranchExists r base || checkRemoteBranchExists r base

/-- The base branch actually used: an empty override falls back to the
primary repository's detected default branch (part_012 lines 247-250). -/
def effectiveBase (w : World) (baseBranch : String) : String :=
  if baseBranch = "" then w.mattermost.defaultBranch else baseBranch

/-! ## Concrete test fixtures

A workspace mirroring the layout the tool expects (`~/workspace` with the
two repositories and the worktree base directory), with branch states drawn
from the repository's own test `TestCreateMattermostDualWorktree_EnterpriseFallback`:
the primary has `main` and `release-1.0`, the companion only `main`, and
neither has remote-tracking branches. -/

def mcEx : MattermostConfig :=
  { WorkspaceRoot := "/ws"
    MattermostPath := "/ws/mattermost"
    EnterprisePath := "/ws/enterprise"
    WorktreeBasePath := "/ws/worktrees"
    ServerPort := 8200
    MetricsPort := 8202 }

def wEx : World :=
  { fs := ["/ws/mattermost", "/ws/mattermost/.git", "/ws/enterprise",
           "/ws/enterprise/.git", "/ws/worktrees"]
    mattermost :=
      { localBranches := ["main", "release-1.0"], remoteBranches := [],
        defaultBranch := "main", worktrees := [] }
    enterprise :=
      { localBranches := ["main"], remoteBranches := [],
        defaultBranch := "main", worktrees := [] } }

def oraAllOk : CreateOracle :=
  { copyBaseOk := true, addMattermostOk := true, addEnterpriseOk := true,
    symlinkMattermostOk := true, symlinkEnterpriseOk := true, copyMappedOk := true }

/-- A failure injected at the mapped-file copy step (the last rollback-guarded
step) with everything before it succeeding. -/
def oraFailMapped : CreateOracle :=
  { copyBaseOk := true, addMattermostOk := true, addEnterpriseOk := true,
    symlinkMattermostOk := true, symlinkEnterpriseOk := true, copyMappedOk := false }

/-- A concrete document exercising C7: an unrelated top-level key and
unrelated leaves inside both known subtrees. -/
def docC7 : List (String × Json) :=
  [("SqlSettings", Json.str "postgres"),
   ("ServiceSettings", Json.obj [("EnableDeveloper", Json.bool true)]),
   ("MetricsSettings", Json.obj [("Enable", Json.bool false)])]

/-- Two primary-prefixed units and one companion-prefixed unit, all
individually valid. -/
def entriesC9 : List DirEntry :=
  [⟨"mattermost-a", true, GitMarker.file "gitdir: /repo/.git/worktrees/a"⟩,
   ⟨"mattermost-b", true, GitMarker.file "gitdir: /repo/.git/worktrees/b"⟩,
   ⟨"enterprise-a", true, GitMarker.file "gitdir: /repo2/.git/worktrees/a"⟩]

/-- A world in which a worktree for branch `feat-x` already exists. -/
def wC10 : World :=
  { fs := ["/ws/mattermost", "/ws/mattermost/.git", "/ws/enterprise",
           "/ws/enterprise/.git", "/ws/worktrees", "/ws/worktrees/mattermost-feat-x"]
    mattermost :=
      { localBranches := ["main", "feat-x"], remoteBranches := [],
        defaultBranch := "main", worktrees := [] }
    enterprise :=
      { localBranches := ["main", "feat-x"], remoteBranches := [],
        defaultBranch := "main", worktrees := [] } }

/-- Removal outcomes where every `git worktree remove` fails. -/
def dirtyRemoval : String → Option String := fun _ => some "worktree is dirty"

/-! ## Association-list lemmas -/

theorem lookupKey_setKey_self (l : List (String × Json)) (k : String) (v : Json) :
    lookupKey (setKey l k v) k = some v := by
  induction l with
  | nil => simp [setKey, lookupKey]
  | cons hd tl ih =>
      obtain ⟨k', v'⟩ := hd
      by_cases h : k' = k
      · simp [setKey, lookupKey, h]
      · simp [setKey, lookupKey, h, ih]

theorem lookupKey_setKey_ne (l : List (String × Json)) (k k' : String) (v : Json)
    (h : k' ≠ k) : lookupKey (setKey l k v) k' = lookupKey l k' := by
  induction l with
  | nil => simp [setKey, lookupKey, h, Ne.symm h]
  | cons hd tl ih =>
      obtain ⟨k₀, v₀⟩ := hd
      by_cases h₀ : k₀ = k
      · subst h₀
        simp [setKey, lookupKey, Ne.symm h]
      · by_cases h₁ : k₀ = k'
        · subst h₁
          simp [setKey, lookupKey, h₀, h]
        · simp [setKey, lookupKey, h₀, h₁, ih]

/-- The `ServiceSettings` subtree after `setPortsObj`. -/
theorem lookupKey_setPortsObj_SS (fields : List (String × Json)) (sp mp : Int) :
    lookupKey (setPortsObj fields sp mp) "ServiceSettings" =
      some (Json.obj (setKey (setKey (getOrEmptyObj fields "ServiceSettings")
        "ListenAddress" (Json.str (portString sp))) "SiteURL" (Json.str (siteURLString sp)))) := by
  simp only [setPortsObj]
  rw [lookupKey_setKey_ne _ _ _ _ (by decide), lookupKey_setKey_self]

/-- The `MetricsSettings` subtree after `setPortsObj`. -/
theorem lookupKey_setPortsObj_MS (fields : List (String × Json)) (sp mp : Int) :
    lookupKey (setPortsObj fields sp mp) "MetricsSettings" =
      some (Json.obj (setKey (getOrEmptyObj fields "MetricsSettings")
        "ListenAddress" (Json.str (portString mp)))) := by
  simp only [setPortsObj, getOrEmptyObj]
  rw [lookupKey_setKey_ne _ _ _ _ (by decide :
    ("MetricsSettings" : String) ≠ "ServiceSettings"), lookupKey_setKey_self]

/-! ## C6: the config mutator is total on objects and sets the three leaves -/

/-- Claim C6: For every JSON config document (any top-level object, including
`{}` and documents where either known subtree is absent, null or mistyped),
`updateConfigPorts` succeeds — it never errors because of a missing or
mistyped subtree — and the result has `ServiceSettings` and
`MetricsSettings` as objects carrying exactly the three port-derived leaves:
`ServiceSettings.ListenAddress = ":<serverPort>"`,
`ServiceSettings.SiteURL = "http://localhost:<serverPort>"`, and
`MetricsSettings.ListenAddress = ":<metricsPort>"`. -/
theorem updateConfigPorts_total_sets_leaves (fields : List (String × Json))
    (serverPort metricsPort : Int) :
    ∃ out, updateConfigPorts (Json.obj fields) serverPort metricsPort =
        Except.ok (Json.obj out) ∧
      (∃ ss, lookupKey out "ServiceSettings" = some (Json.obj ss) ∧
        lookupKey ss "ListenAddress" = some (Json.str (portString serverPort)) ∧
        lookupKey ss "SiteURL" = some (Json.str (siteURLString serverPort))) ∧
      (∃ ms, lookupKey out "MetricsSettings" = some (Json.obj ms) ∧
        lookupKey ms "ListenAddress" = some (Json.str (portString metricsPort))) := by
  refine ⟨setPortsObj fields serverPort metricsPort, rfl,
    ⟨_, lookupKey_setPortsObj_SS fields serverPort metricsPort, ?_, ?_⟩,
    ⟨_, lookupKey_setPortsObj_MS fields serverPort metricsPort, ?_⟩⟩
  · rw [lookupKey_setKey_ne _ _ _ _ (by decide), lookupKey_setKey_self]
  · rw [lookupKey_setKey_self]
  · rw [lookupKey_setKey_self]

/-- Witness for C6 at the spec scenario: document `{}` with
`setPorts(8891, 8893)`. -/
theorem updateConfigPorts_total_sets_leaves_witness :
    ∃ out, updateConfigPorts (Json.obj []) 8891 8893 = Except.ok (Json.obj out) ∧
      (∃ ss, lookupKey out "ServiceSettings" = some (Json.obj ss) ∧
        lookupKey ss "ListenAddress" = some (Json.str (portString 8891)) ∧
        lookupKey ss "SiteURL" = some (Json.str (siteURLString 8891))) ∧
      (∃ ms, lookupKey out "MetricsSettings" = some (Json.obj ms) ∧
        lookupKey ms "ListenAddress" = some (Json.str (portString 8893))) :=
  updateConfigPorts_total_sets_leaves [] 8891 8893

/-! ## C7: frame property of the config mutator -/

/-- Claim C7: Port mutation preserves every top-level key other than
`ServiceSettings` and `MetricsSettings`, and inside the two known subtrees
(when they were objects) changes nothing except the three port-derived
leaves — every unrelated field round-trips untouched. -/
theorem setPortsObj_frame (fields : List (String × Json)) (serverPort metricsPort : Int) :
    (∀ k, k ≠ "ServiceSettings" → k ≠ "MetricsSettings" →
      lookupKey (setPortsObj fields serverPort metricsPort) k = lookupKey fields k) ∧
    (∀ ss k, lookupKey fields "ServiceSettings" = some (Json.obj ss) →
      k ≠ "ListenAddress" → k ≠ "SiteURL" →
      ∃ ss', lookupKey (setPortsObj fields serverPort metricsPort) "ServiceSettings" =
          some (Json.obj ss') ∧
        lookupKey ss' k = lookupKey ss k) ∧
    (∀ ms k, lookupKey fields "MetricsSettings" = some (Json.obj ms) →
      k ≠ "ListenAddress" →
      ∃ ms', lookupKey (setPortsObj fields serverPort metricsPort) "MetricsSettings" =
          some (Json.obj ms') ∧
        lookupKey ms' k = lookupKey ms k) := by
  refine ⟨?_, ?_, ?_⟩
  · intro k hss hms
    simp only [setPortsObj]
    rw [lookupKey_setKey_ne _ _ _ _ hms, lookupKey_setKey_ne _ _ _ _ hss]
  · intro ss k hss hk1 hk2
    refine ⟨_, lookupKey_setPortsObj_SS fields serverPort metricsPort, ?_⟩
    rw [lookupKey_setKey_ne _ _ _ _ hk2, lookupKey_setKey_ne _ _ _ _ hk1]
    simp [getOrEmptyObj, hss]
  · intro ms k hms hk
    refine ⟨_, lookupKey_setPortsObj_MS fields serverPort metricsPort, ?_⟩
    rw [lookupKey_setKey_ne _ _ _ _ hk]
    simp [getOrEmptyObj, hms]

/-- Witness for C7 on `docC7`. -/
theorem setPortsObj_frame_witness :
    lookupKey (setPortsObj docC7 8891 8893) "SqlSettings" = some (Json.str "postgres") ∧
    (∃ ss', lookupKey (setPortsObj docC7 8891 8893) "ServiceSettings" = some (Json.obj ss') ∧
      lookupKey ss' "EnableDeveloper" = some (Json.bool true)) ∧
    (∃ ms', lookupKey (setPortsObj docC7 8891 8893) "MetricsSettings" = some (Json.obj ms') ∧
      lookupKey ms' "Enable" = some (Json.bool false)) := by
  have h := setPortsObj_frame docC7 8891 8893
  refine ⟨?_, ?_, ?_⟩
  · rw [h.1 "SqlSettings" (by decide) (by decide)]
    rfl
  · obtain ⟨ss', h1, h2⟩ :=
      h.2.1 [("EnableDeveloper", Json.bool true)] "EnableDeveloper" rfl (by decide) (by decide)
    exact ⟨ss', h1, by rw [h2]; rfl⟩
  · obtain ⟨ms', h1, h2⟩ :=
      h.2.2 [("Enable", Json.bool false)] "Enable" rfl (by decide)
    exact ⟨ms', h1, by rw [h2]; rfl⟩

/-! ## C9: DUAL classification -/

/-- A name with the companion prefix cannot also carry the primary prefix,
so the `else if` in the scan never hides a companion unit. -/
theorem hasPrefix_enterprise_not_mattermost (s : String)
    (h : hasPrefixStr s "enterprise-" = true) :
    hasPrefixStr s "mattermost-" = false := by
  unfold hasPrefixStr at h ⊢
  have he : ("enterprise-" : String).data = 'e' :: "nterprise-".data := rfl
  have hm : ("mattermost-" : String).data = 'm' :: "attermost-".data := rfl
  rw [he] at h
  rw [hm]
  cases hd : s.data with
  | nil => rw [hd] at h; simp [List.isPrefixOf] at h
  | cons c cs =>
      rw [hd] at h
      simp only [List.isPrefixOf, Bool.and_eq_true, beq_iff_eq] at h
      obtain ⟨rfl, -⟩ := h
      simp [List.isPrefixOf]

/-- Claim C9, amended: A directory listing classifies as a dual worktree iff
it contains *at least one* primary-prefixed subdirectory validated via its
`.git` marker and *at least one* companion-prefixed subdirectory validated
via its `.git` marker; exactly-one is not required. -/
theorem IsMattermostDualWorktree_iff (entries : List DirEntry) :
    IsMattermostDualWorktree (some entries) = true ↔
      ((∃ e ∈ entries, e.isDir = true ∧ hasPrefixStr e.name "mattermost-" = true ∧
          isGitWorktree e = true) ∧
       (∃ e ∈ entries, e.isDir = true ∧ hasPrefixStr e.name "enterprise-" = true ∧
          isGitWorktree e = true)) := by
  simp only [IsMattermostDualWorktree, Bool.and_eq_true, List.any_eq_true]
  constructor
  · rintro ⟨⟨e1, he1, h1⟩, ⟨e2, he2, h2⟩⟩
    exact ⟨⟨e1, he1, h1.1.1, h1.1.2, h1.2⟩,
           ⟨e2, he2, h2.1.1.1, h2.1.2, h2.2⟩⟩
  · rintro ⟨⟨e1, he1, hd1, hp1, hg1⟩, ⟨e2, he2, hd2, hp2, hg2⟩⟩
    refine ⟨⟨e1, he1, ?_⟩, ⟨e2, he2, ?_⟩⟩
    · simp [hd1, hp1, hg1]
    · simp [hd2, hp2, hg2, hasPrefix_enterprise_not_mattermost _ hp2]

/-- Witness for the amended C9 on the concrete listing `entriesC9`. -/
theorem IsMattermostDualWorktree_iff_witness :
    IsMattermostDualWorktree (some entriesC9) = true :=
  (IsMattermostDualWorktree_iff entriesC9).mpr
    ⟨⟨⟨"mattermost-a", true, GitMarker.file "gitdir: /repo/.git/worktrees/a"⟩,
      by decide, by decide, by decide, by decide⟩,
     ⟨⟨"enterprise-a", true, GitMarker.file "gitdir: /repo2/.git/worktrees/a"⟩,
      by decide, by decide, by decide, by decide⟩⟩

/-- Claim C9 counterexample: A listing with *two* primary-prefixed validated
subdirectories still classifies as DUAL, contradicting the claim's
"exactly one primary-prefixed" requirement. -/
theorem IsMattermostDualWorktree_not_exactly_one :
    IsMattermostDualWorktree (some entriesC9) = true ∧
    (entriesC9.filter (fun e => e.isDir && hasPrefixStr e.name "mattermost-")).length ≠ 1 := by
  decide

/-! ## C10: branch-name sanitization is not injective -/

/-- Claim C10: Sanitization replaces each of `/ \ : * ? " < > |` with `-` and
is therefore not injective: the distinct branches `feat/x` and `feat-x` map
to the same worktree path, and a checkout of `feat/x` while a `feat-x`
worktree exists short-circuits to that existing directory as if it were its
own. -/
theorem sanitize_not_injective_aliases_checkout :
    ("feat/x" : String) ≠ "feat-x" ∧
    SanitizeBranchName "feat/x" = SanitizeBranchName "feat-x" ∧
    GetMattermostWorktreePath mcEx "feat/x" = GetMattermostWorktreePath mcEx "feat-x" ∧
    (∀ c ∈ ['/', '\\', ':', '*', '?', '\"', '<', '>', '|'], sanitizeChar c = '-') ∧
    RunMattermostCheckout mcEx oraAllOk (0, 0) wC10 "feat/x" "" 0 0 =
      (wC10, [CDMarker ++ "/ws/worktrees/mattermost-feat-x"], Except.ok ()) := by
  refine ⟨by decide, by decide, by decide, by decide, ?_⟩
  rfl

/-! ## C8: removal error propagation -/

/-- Claim C8 counterexample: With both units present and the primary unit's
removal failing, the companion unit removal is never attempted — the
attempted-removal log stops at the primary unit. -/
theorem remove_skips_companion :
    (RemoveMattermostDualWorktree true true (some "mattermost-x") (some "enterprise-x")
        dirtyRemoval).1 = ["mattermost-x"] ∧
    ¬ ("enterprise-x" ∈ (RemoveMattermostDualWorktree true true (some "mattermost-x")
        (some "enterprise-x") dirtyRemoval).1) := by
  decide

/-- Claim C8, amended: During dual-worktree removal a failure removing the
primary unit is returned immediately and the companion unit removal is not
attempted; only branch deletion (`DeleteBranchFromRepos`) always attempts
both repositories and surfaces both errors together when both fail. -/
theorem removal_error_propagation (mmName entName err : String)
    (f : String → Option String) (hf : f mmName = some err) (mmErr entErr : String) :
    ((RemoveMattermostDualWorktree true true (some mmName) (some entName) f).1 = [mmName] ∧
     (RemoveMattermostDualWorktree true true (some mmName) (some entName) f).2 =
       Except.error ("failed to remove mattermost worktree: " ++ err)) ∧
    ((DeleteBranchFromRepos (some mmErr) (some entErr)).1 = ["mattermost", "enterprise"] ∧
     (DeleteBranchFromRepos (some mmErr) (some entErr)).2 =
       Except.error ("failed to delete branches: " ++
         String.intercalate "; " ["mattermost: " ++ mmErr, "enterprise: " ++ entErr])) := by
  refine ⟨⟨?_, ?_⟩, ⟨rfl, ?_⟩⟩
  · simp [RemoveMattermostDualWorktree, hf]
  · simp [RemoveMattermostDualWorktree, hf]
  · simp [DeleteBranchFromRepos]

/-- Witness for the amended C8 at concrete inputs. -/
theorem removal_error_propagation_witness :
    ((RemoveMattermostDualWorktree true true (some "mattermost-y") (some "enterprise-y")
        (fun _ => some "locked")).1 = ["mattermost-y"] ∧
     (RemoveMattermostDualWorktree true true (some "mattermost-y") (some "enterprise-y")
        (fun _ => some "locked")).2 =
       Except.error ("failed to remove mattermost worktree: " ++ "locked")) ∧
    ((DeleteBranchFromRepos (some "no branch a") (some "no branch b")).1 =
        ["mattermost", "enterprise"] ∧
     (DeleteBranchFromRepos (some "no branch a") (some "no branch b")).2 =
       Except.error ("failed to delete branches: " ++
         String.intercalate "; " ["mattermost: " ++ "no branch a",
                                  "enterprise: " ++ "no branch b"])) :=
  removal_error_propagation "mattermost-y" "enterprise-y" "locked"
    (fun _ => some "locked") rfl "no branch a" "no branch b"

/-! ## C1: no per-repository base-branch fallback -/

/-- Claim C1: At the exact scenario of the repository's own test
`TestCreateMattermostDualWorktree_EnterpriseFallback` — branch absent from
both repositories, explicit base `release-1.0` present only in the primary —
dual-worktree creation *fails* with a base-branch-not-found error for the
companion and rolls the directory back, instead of rooting the companion at
its own default branch as the claim, the spec and the test require. -/
theorem create_fails_without_companion_fallback :
    (CreateMattermostDualWorktree mcEx oraAllOk wEx "test-branch" "release-1.0").2 =
      Except.error ("failed to create enterprise worktree: base branch release-1.0 not found in enterprise (tried local and origin/release-1.0)") ∧
    (CreateMattermostDualWorktree mcEx oraAllOk wEx "test-branch" "release-1.0").1.fs =
      wEx.fs := by
  exact ⟨rfl, rfl⟩

/-! ## Port allocator lemmas -/

theorem firstAvail_some {avail : Int → Bool} {l : List Int} {c : Int}
    (h : firstAvail avail l = some c) : c ∈ l ∧ avail c = true := by
  induction l with
  | nil => simp [firstAvail] at h
  | cons hd tl ih =>
      by_cases hav : avail hd = true
      · simp [firstAvail, hav] at h
        subst h
        exact ⟨List.mem_cons_self _ _, hav⟩
      · simp [firstAvail, hav] at h
        obtain ⟨hm, ha⟩ := ih h
        exact ⟨List.mem_cons_of_mem _ hm, ha⟩

theorem firstAvail_none {avail : Int → Bool} {l : List Int}
    (h : ∀ c ∈ l, avail c = false) : firstAvail avail l = none := by
  induction l with
  | nil => rfl
  | cons hd tl ih =>
      simp [firstAvail, h hd (List.mem_cons_self _ _), ih (fun c hc => h c (List.mem_cons_of_mem _ hc))]

theorem isPortPairAvailable_true {probe : Int → Bool} {c : Int} {reserved : List Int}
    (h : isPortPairAvailable probe c reserved = true) :
    reserved.contains c = false ∧ reserved.contains (c + MetricsPortOffset) = false := by
  simp only [isPortPairAvailable] at h
  constructor
  · cases h1 : reserved.contains c with
    | false => rfl
    | true => rw [h1] at h; simp at h
  · cases h2 : reserved.contains (c + MetricsPortOffset) with
    | false => rfl
    | true => rw [h2] at h; simp at h

theorem addServerPort_pos (init : List Int) (pair : PortPair)
    (h : ∀ p ∈ init, 0 < p) : ∀ p ∈ addServerPort init pair, 0 < p := by
  intro p hp
  unfold addServerPort at hp
  split at hp
  · simp only [List.mem_append, List.mem_singleton] at hp
    rcases hp with hp | rfl
    · exact h p hp
    · assumption
  · exact h p hp

theorem addMetricsPort_pos (init : List Int) (pair : PortPair)
    (h : ∀ p ∈ init, 0 < p) : ∀ p ∈ addMetricsPort init pair, 0 < p := by
  intro p hp
  unfold addMetricsPort at hp
  split at hp
  · simp only [List.mem_append, List.mem_singleton] at hp
    rcases hp with hp | rfl
    · exact h p hp
    · assumption
  · exact h p hp

theorem reservePortsStep_pos (init : List Int) (wt : WorktreePortView)
    (h : ∀ p ∈ init, 0 < p) : ∀ p ∈ reservePortsStep init wt, 0 < p := by
  unfold reservePortsStep
  split
  · split
    · exact addMetricsPort_pos _ _ (addServerPort_pos _ _ h)
    · exact h
  · exact h

theorem GetReservedPorts_pos (wts : List WorktreePortView) :
    ∀ p ∈ GetReservedPorts wts, 0 < p := by
  have main : ∀ (l : List WorktreePortView) (init : List Int),
      (∀ p ∈ init, 0 < p) → ∀ p ∈ l.foldl reservePortsStep init, 0 < p := by
    intro l
    induction l with
    | nil => intro init h; simpa using h
    | cons hd tl ih =>
        intro init h
        exact ih _ (reservePortsStep_pos init hd h)
  refine main wts ExcludedPorts ?_
  intro p hp
  simp only [ExcludedPorts, MainRepoPort, List.mem_cons, List.not_mem_nil, or_false] at hp
  rcases hp with rfl | hp
  · norm_num
  · simp at hp
    omega

theorem GetReservedPorts_not_contains_zero (wts : List WorktreePortView) :
    (GetReservedPorts wts).contains 0 = false := by
  cases hc : (GetReservedPorts wts).contains 0 with
  | false => rfl
  | true =>
      have : (0 : Int) ∈ GetReservedPorts wts := List.elem_iff.mp hc
      have := GetReservedPorts_pos wts 0 this
      omega

theorem candidate_bounds (x : Nat) (h : x < 898) :
    PortRangeStart ≤ PortRangeStart + Int.ofNat x ∧
    PortRangeStart + Int.ofNat x ≤ PortRangeEnd - MetricsPortOffset := by
  simp only [PortRangeStart, PortRangeEnd, MetricsPortOffset, Int.ofNat_eq_natCast]
  omega

/-- Case analysis on the allocator's result: either the sentinel, or an
available candidate from the trimmed range together with its metrics
counterpart. -/
theorem alloc_cases (wts : List WorktreePortView) (draws : Nat → Nat) (probe : Int → Bool) :
    GetAvailablePortsWithRand wts draws probe = (0, 0) ∨
    ∃ c, GetAvailablePortsWithRand wts draws probe = (c, c + MetricsPortOffset) ∧
      isPortPairAvailable probe c (GetReservedPorts wts) = true ∧
      PortRangeStart ≤ c ∧ c ≤ PortRangeEnd - MetricsPortOffset := by
  have hsize : ((PortRangeEnd - MetricsPortOffset - PortRangeStart + 1 : Int)).toNat = 898 := by
    decide
  simp only [GetAvailablePortsWithRand]
  split
  next c hc =>
    right
    obtain ⟨hmem, hav⟩ := firstAvail_some hc
    obtain ⟨i, hi, rfl⟩ := List.mem_map.mp hmem
    rw [hsize] at *
    have hmod : draws i % 898 < 898 := Nat.mod_lt _ (by norm_num)
    obtain ⟨hb1, hb2⟩ := candidate_bounds _ hmod
    exact ⟨_, rfl, by rw [hsize] at hav; exact hav, hb1, hb2⟩
  next hnone =>
    split
    next c hc =>
      right
      obtain ⟨hmem, hav⟩ := firstAvail_some hc
      obtain ⟨i, hi, rfl⟩ := List.mem_map.mp hmem
      have hmod : (draws PortRandomRetries % ((PortRangeEnd - MetricsPortOffset -
          PortRangeStart + 1 : Int)).toNat + i) %
          ((PortRangeEnd - MetricsPortOffset - PortRangeStart + 1 : Int)).toNat < 898 := by
        rw [hsize]
        exact Nat.mod_lt _ (by norm_num)
      obtain ⟨hb1, hb2⟩ := candidate_bounds _ hmod
      exact ⟨_, rfl, hav, hb1, hb2⟩
    next => left; rfl

/-! ## C4: the allocated pair avoids the reserved set; the offset equation
holds for every allocation but *not* for the exhaustion sentinel -/

set_option maxRecDepth 40000 in
/-- Claim C4 counterexample: When every candidate pair is unavailable (here:
the localhost bind probe reports every port busy), the allocator returns the
`(0, 0)` sentinel, whose metrics component does *not* equal its server
component plus the fixed offset — the claimed equation does not hold for
every returned pair. -/
theorem allocator_sentinel_breaks_offset :
    ¬ ((GetAvailablePortsWithRand [] (fun _ => 0) (fun _ => false)).2 =
       (GetAvailablePortsWithRand [] (fun _ => 0) (fun _ => false)).1 + MetricsPortOffset) := by
  decide

/-- Claim C4, amended: For every existing-worktree set, random stream and
probe environment, the returned pair never intersects the reserved set; and
unless the allocator returns the `(0, 0)` no-ports sentinel, the metrics
port equals the server port plus the fixed offset 2, with the server port
inside the trimmed range. -/
theorem allocator_avoids_reserved (wts : List WorktreePortView) (draws : Nat → Nat)
    (probe : Int → Bool) :
    ((GetReservedPorts wts).contains (GetAvailablePortsWithRand wts draws probe).1 = false) ∧
    ((GetReservedPorts wts).contains (GetAvailablePortsWithRand wts draws probe).2 = false) ∧
    (GetAvailablePortsWithRand wts draws probe = (0, 0) ∨
      ((GetAvailablePortsWithRand wts draws probe).2 =
         (GetAvailablePortsWithRand wts draws probe).1 + MetricsPortOffset ∧
       PortRangeStart ≤ (GetAvailablePortsWithRand wts draws probe).1 ∧
       (GetAvailablePortsWithRand wts draws probe).1 ≤ PortRangeEnd - MetricsPortOffset)) := by
  rcases alloc_cases wts draws probe with h | ⟨c, h, hav, hb1, hb2⟩
  · rw [h]
    exact ⟨GetReservedPorts_not_contains_zero wts, GetReservedPorts_not_contains_zero wts,
      Or.inl rfl⟩
  · obtain ⟨h1, h2⟩ := isPortPairAvailable_true hav
    rw [h]
    exact ⟨h1, h2, Or.inr ⟨rfl, hb1, hb2⟩⟩

/-- Witness for the amended C4 at a concrete worktree set, random stream and
probe. -/
theorem allocator_avoids_reserved_witness :
    ((GetReservedPorts []).contains
        (GetAvailablePortsWithRand [] (fun _ => 0) (fun _ => true)).1 = false) ∧
    ((GetReservedPorts []).contains
        (GetAvailablePortsWithRand [] (fun _ => 0) (fun _ => true)).2 = false) ∧
    (GetAvailablePortsWithRand [] (fun _ => 0) (fun _ => true) = (0, 0) ∨
      ((GetAvailablePortsWithRand [] (fun _ => 0) (fun _ => true)).2 =
         (GetAvailablePortsWithRand [] (fun _ => 0) (fun _ => true)).1 + MetricsPortOffset ∧
       PortRangeStart ≤ (GetAvailablePortsWithRand [] (fun _ => 0) (fun _ => true)).1 ∧
       (GetAvailablePortsWithRand [] (fun _ => 0) (fun _ => true)).1 ≤
         PortRangeEnd - MetricsPortOffset)) :=
  allocator_avoids_reserved [] (fun _ => 0) (fun _ => true)

/-! ## C5: exhaustion yields a sentinel disjoint from legitimate results -/

/-- Claim C5: When every candidate server port in the trimmed range is
unavailable, the allocator returns the distinct `(0, 0)` no-ports signal;
and any non-sentinel return carries a server port inside the trimmed range
(so the sentinel can never be confused with a legitimately allocated
pair). -/
theorem allocator_exhaustion_sentinel (wts : List WorktreePortView) (draws : Nat → Nat)
    (probe : Int → Bool) :
    ((∀ c : Int, PortRangeStart ≤ c → c ≤ PortRangeEnd - MetricsPortOffset →
        isPortPairAvailable probe c (GetReservedPorts wts) = false) →
      GetAvailablePortsWithRand wts draws probe = (0, 0)) ∧
    (GetAvailablePortsWithRand wts draws probe ≠ (0, 0) →
      PortRangeStart ≤ (GetAvailablePortsWithRand wts draws probe).1 ∧
      (GetAvailablePortsWithRand wts draws probe).1 ≤ PortRangeEnd - MetricsPortOffset ∧
      (GetAvailablePortsWithRand wts draws probe).2 =
        (GetAvailablePortsWithRand wts draws probe).1 + MetricsPortOffset) := by
  constructor
  · intro hall
    rcases alloc_cases wts draws probe with h | ⟨c, h, hav, hb1, hb2⟩
    · exact h
    · rw [hall c hb1 hb2] at hav
      cases hav
  · intro hne
    rcases alloc_cases wts draws probe with h | ⟨c, h, hav, hb1, hb2⟩
    · exact absurd h hne
    · rw [h]
      exact ⟨hb1, hb2, rfl⟩

/-- Witness for C5: with every localhost port busy the allocator reports
exhaustion with the sentinel. -/
theorem allocator_exhaustion_sentinel_witness :
    GetAvailablePortsWithRand [] (fun _ => 0) (fun _ => false) = (0, 0) :=
  (allocator_exhaustion_sentinel [] (fun _ => 0) (fun _ => false)).1
    (fun c _ _ => by simp [isPortPairAvailable])

/-! ## Path and filesystem lemmas -/

theorem hasPrefixStr_append (a b : String) : hasPrefixStr (a ++ b) a = true := by
  simp only [hasPrefixStr, String.data_append, List.isPrefixOf_iff_prefix]
  exact List.prefix_append _ _

theorem pathUnder_self (d : String) : pathUnder d d = true := by
  simp [pathUnder]

theorem pathUnder_child (d x : String) : pathUnder d (d ++ "/" ++ x) = true := by
  simp only [pathUnder, hasPrefixStr_append, Bool.or_true]

theorem pathUnder_trans_child {d : String} (x : String) {p : String}
    (h : pathUnder (d ++ "/" ++ x) p = true) : pathUnder d p = true := by
  simp only [pathUnder, Bool.or_eq_true, beq_iff_eq] at h ⊢
  have hbase : (d ++ "/").data <+: (d ++ "/" ++ x).data := by
    rw [String.data_append (d ++ "/") x]
    exact List.prefix_append _ _
  rcases h with rfl | h
  · right
    rw [hasPrefixStr, List.isPrefixOf_iff_prefix]
    exact hbase
  · right
    rw [hasPrefixStr, List.isPrefixOf_iff_prefix] at h ⊢
    refine List.IsPrefix.trans hbase (List.IsPrefix.trans ?_ h)
    rw [String.data_append (d ++ "/" ++ x) "/"]
    exact List.prefix_append _ _

theorem mem_removeAllFS {d p : String} {fs : FS} :
    p ∈ removeAllFS d fs ↔ p ∈ fs ∧ pathUnder d p = false := by
  simp [removeAllFS, List.mem_filter]

theorem removeAllFS_not_contains_self (d : String) (fs : FS) :
    (removeAllFS d fs).contains d = false := by
  cases hc : (removeAllFS d fs).contains d with
  | false => rfl
  | true =>
      have hm := List.elem_iff.mp hc
      rw [mem_removeAllFS] at hm
      rw [pathUnder_self] at hm
      cases hm.2

theorem mem_mkdirFS {q p : String} {fs : FS} :
    p ∈ mkdirFS q fs ↔ p ∈ fs ∨ p = q := by
  unfold mkdirFS
  split
  next hc =>
    constructor
    · exact Or.inl
    · rintro (hp | rfl)
      · exact hp
      · exact List.elem_iff.mp hc
  next => simp [List.mem_append]

theorem mem_mkdirFS_of_mem {q p : String} {fs : FS} (h : p ∈ fs) : p ∈ mkdirFS q fs :=
  mem_mkdirFS.mpr (Or.inl h)

theorem pruneRepo_worktrees_spec {fs : FS} {r : RepoState} :
    ∀ p ∈ (pruneRepo fs r).worktrees, p ∈ r.worktrees ∧ p ∈ fs := by
  intro p hp
  have h := List.mem_filter.mp hp
  exact ⟨h.1, List.elem_iff.mp h.2⟩

/-! ## C3: checkout of an existing worktree is an idempotent no-op -/

/-- Claim C3: When the dual worktree directory for the branch already exists
(in particular whenever a valid dual-repo logical worktree for the branch
exists, since validity entails the directory's presence), with a valid
two-repository setup, a checkout call returns success, leaves the world —
filesystem and both repositories' bookkeeping — exactly unchanged, and
emits only the directory-switch marker for the existing path. -/
theorem checkout_existing_idempotent (mc : MattermostConfig) (ora : CreateOracle)
    (autoPorts : Int × Int) (w : World) (branch baseBranch : String)
    (serverPort metricsPort : Int)
    (hmm : isGitRepoFS w.fs mc.MattermostPath = true)
    (hent : isGitRepoFS w.fs mc.EnterprisePath = true)
    (hbase : w.fs.contains mc.WorktreeBasePath = true)
    (hexists : w.fs.contains (GetMattermostWorktreePath mc branch) = true) :
    RunMattermostCheckout mc ora autoPorts w branch baseBranch serverPort metricsPort =
      (w, [CDMarker ++ GetMattermostWorktreePath mc branch], Except.ok ()) := by
  have hbase' : mc.WorktreeBasePath ∈ w.fs := List.elem_iff.mp hbase
  have hexists' : GetMattermostWorktreePath mc branch ∈ w.fs := List.elem_iff.mp hexists
  simp [RunMattermostCheckout, ValidateMattermostSetup, mkdirFS, hmm, hent, hbase', hexists']

/-! ## Lemmas about the create/cleanup machinery -/

theorem registerWorktree_worktrees (r : RepoState) (b : String) (cb : Bool) (p : String) :
    (registerWorktree r b cb p).worktrees = r.worktrees ++ [p] := rfl

theorem registerWorktree_local_cases (r : RepoState) (b : String) (cb : Bool) (p : String) :
    (registerWorktree r b cb p).localBranches = r.localBranches ∨
    (registerWorktree r b cb p).localBranches = r.localBranches ++ [b] := by
  unfold registerWorktree
  split
  · right; rfl
  · left; rfl

theorem runWorktreeAdd_ok {addOk : Bool} {fs : FS} {r : RepoState} {branch : String}
    {cb : Bool} {path : String} {out : RepoState × FS}
    (h : runWorktreeAdd addOk fs r branch cb path = Except.ok out) :
    addOk = true ∧ out = (registerWorktree r branch cb path, mkdirFS path fs) := by
  unfold runWorktreeAdd at h
  split at h
  next ha => exact ⟨ha, (Except.ok.inj h).symm⟩
  next => exact Except.noConfusion h

theorem createWorktreeForRepo_ok_shape {addOk : Bool} {fs : FS} {r : RepoState}
    {name branch base path : String} {out : RepoState × FS}
    (h : createWorktreeForRepo addOk fs r name branch base path = Except.ok out) :
    ∃ b, out = (registerWorktree r branch b path, mkdirFS path fs) := by
  unfold createWorktreeForRepo at h
  split at h
  · exact ⟨false, (runWorktreeAdd_ok h).2⟩
  · split at h
    · exact ⟨true, (runWorktreeAdd_ok h).2⟩
    · split at h
      · exact ⟨true, (runWorktreeAdd_ok h).2⟩
      · split at h
        · exact ⟨true, (runWorktreeAdd_ok h).2⟩
        · exact Except.noConfusion h

theorem createWorktreeForRepo_ok {fs : FS} {r : RepoState} {name branch base path : String}
    (h : branchResolvable r branch base = true) :
    ∃ b, createWorktreeForRepo true fs r name branch base path =
      Except.ok (registerWorktree r branch b path, mkdirFS path fs) := by
  cases hb1 : checkBranchExists r branch with
  | true => exact ⟨false, by simp [createWorktreeForRepo, runWorktreeAdd, hb1]⟩
  | false =>
    cases hb2 : checkRemoteBranchExists r branch with
    | true => exact ⟨true, by simp [createWorktreeForRepo, runWorktreeAdd, hb1, hb2]⟩
    | false =>
      cases hb3 : checkBranchExists r base with
      | true => exact ⟨true, by simp [createWorktreeForRepo, runWorktreeAdd, hb1, hb2, hb3]⟩
      | false =>
        cases hb4 : checkRemoteBranchExists r base with
        | true =>
            exact ⟨true, by simp [createWorktreeForRepo, runWorktreeAdd, hb1, hb2, hb3, hb4]⟩
        | false =>
            exfalso
            rw [branchResolvable, hb1, hb2, hb3, hb4] at h
            simp at h

theorem branchResolvable_mono {r r' : RepoState} {branch base : String}
    (h : branchResolvable r branch base = true)
    (hl : r'.localBranches = r.localBranches ∨
      r'.localBranches = r.localBranches ++ [branch])
    (hr : r'.remoteBranches = r.remoteBranches) :
    branchResolvable r' branch base = true := by
  rcases hl with hl | hl
  · unfold branchResolvable checkBranchExists checkRemoteBranchExists at h ⊢
    rw [hl, hr]
    exact h
  · have hc : r'.localBranches.contains branch = true := by
      rw [hl]
      exact List.elem_iff.mpr (List.mem_append_right _ (List.mem_singleton_self _))
    unfold branchResolvable checkBranchExists
    rw [hc]
    simp

theorem removalStage_mm_fields (m e : String) (f1 f2 : Bool) (wm : World) :
    (removalStage m e f1 f2 wm).mattermost.localBranches = wm.mattermost.localBranches ∧
    (removalStage m e f1 f2 wm).mattermost.remoteBranches = wm.mattermost.remoteBranches ∧
    (removalStage m e f1 f2 wm).mattermost.defaultBranch = wm.mattermost.defaultBranch ∧
    (removalStage m e f1 f2 wm).enterprise.localBranches = wm.enterprise.localBranches ∧
    (removalStage m e f1 f2 wm).enterprise.remoteBranches = wm.enterprise.remoteBranches ∧
    (removalStage m e f1 f2 wm).enterprise.defaultBranch = wm.enterprise.defaultBranch := by
  cases f1 <;> cases f2 <;>
    simp [removalStage, removeWorktreeFromRepo]

theorem removalStage_mm_worktrees (m e : String) (f1 f2 : Bool) (wm : World) :
    ∀ p ∈ (removalStage m e f1 f2 wm).mattermost.worktrees,
      p ∈ wm.mattermost.worktrees ∧ (f1 = true → p ≠ m) := by
  cases f1 <;> cases f2 <;> intro p hp <;>
    simp only [removalStage, removeWorktreeFromRepo, if_true, if_false] at hp <;>
    simp only [Bool.false_eq_true, false_implies, and_true, IsEmpty.forall_iff,
      forall_true_left, true_implies]
  · exact hp
  · exact hp
  · have h := List.mem_filter.mp hp
    exact ⟨h.1, of_decide_eq_true h.2⟩
  · have h := List.mem_filter.mp hp
    exact ⟨h.1, of_decide_eq_true h.2⟩

theorem removalStage_ent_worktrees (m e : String) (f1 f2 : Bool) (wm : World) :
    ∀ p ∈ (removalStage m e f1 f2 wm).enterprise.worktrees,
      p ∈ wm.enterprise.worktrees ∧ (f2 = true → p ≠ e) := by
  cases f1 <;> cases f2 <;> intro p hp <;>
    simp only [removalStage, removeWorktreeFromRepo, if_true, if_false] at hp <;>
    simp only [Bool.false_eq_true, false_implies, and_true, IsEmpty.forall_iff,
      forall_true_left, true_implies]
  · exact hp
  · have h := List.mem_filter.mp hp
    exact ⟨h.1, of_decide_eq_true h.2⟩
  · exact hp
  · have h := List.mem_filter.mp hp
    exact ⟨h.1, of_decide_eq_true h.2⟩

theorem removalStage_fs_mem (m e : String) (f1 f2 : Bool) (wm : World) (p : String)
    (hp : p ∈ wm.fs) (h1 : pathUnder m p = false) (h2 : pathUnder e p = false) :
    p ∈ (removalStage m e f1 f2 wm).fs := by
  cases f1 <;> cases f2 <;>
    simp [removalStage, removeWorktreeFromRepo, mem_removeAllFS, hp, h1, h2]

/-- Postconditions of the `cleanup` closure: the logical worktree directory
and everything under it are gone, and every surviving bookkeeping entry of
either repository points at a path that still exists (and not under the
removed directory); branch state is untouched. -/
theorem cleanup_spec (t m e : String) (f1 f2 : Bool) (wm : World)
    (hm : ∀ p ∈ wm.mattermost.worktrees, (f1 = true ∧ p = m) ∨
        (pathUnder t p = false ∧ p ∈ wm.fs))
    (he : ∀ p ∈ wm.enterprise.worktrees, (f2 = true ∧ p = e) ∨
        (pathUnder t p = false ∧ p ∈ wm.fs))
    (hmt : ∀ p, pathUnder m p = true → pathUnder t p = true)
    (het : ∀ p, pathUnder e p = true → pathUnder t p = true) :
    ((cleanupCreate t m e f1 f2 wm).fs.contains t = false) ∧
    (∀ p ∈ (cleanupCreate t m e f1 f2 wm).fs, pathUnder t p = false) ∧
    (∀ p ∈ (cleanupCreate t m e f1 f2 wm).mattermost.worktrees,
        (cleanupCreate t m e f1 f2 wm).fs.contains p = true) ∧
    (∀ p ∈ (cleanupCreate t m e f1 f2 wm).enterprise.worktrees,
        (cleanupCreate t m e f1 f2 wm).fs.contains p = true) ∧
    ((cleanupCreate t m e f1 f2 wm).mattermost.localBranches =
        wm.mattermost.localBranches) ∧
    ((cleanupCreate t m e f1 f2 wm).mattermost.remoteBranches =
        wm.mattermost.remoteBranches) ∧
    ((cleanupCreate t m e f1 f2 wm).mattermost.defaultBranch =
        wm.mattermost.defaultBranch) ∧
    ((cleanupCreate t m e f1 f2 wm).enterprise.localBranches =
        wm.enterprise.localBranches) ∧
    ((cleanupCreate t m e f1 f2 wm).enterprise.remoteBranches =
        wm.enterprise.remoteBranches) ∧
    ((cleanupCreate t m e f1 f2 wm).enterprise.defaultBranch =
        wm.enterprise.defaultBranch) := by
  obtain ⟨hf1, hf2, hf3, hf4, hf5, hf6⟩ := removalStage_mm_fields m e f1 f2 wm
  have hmm2 : ∀ p ∈ (removalStage m e f1 f2 wm).mattermost.worktrees,
      pathUnder t p = false ∧ p ∈ (removalStage m e f1 f2 wm).fs := by
    intro p hp
    obtain ⟨hpw, hpne⟩ := removalStage_mm_worktrees m e f1 f2 wm p hp
    rcases hm p hpw with ⟨hfl, rfl⟩ | ⟨hno, hin⟩
    · exact absurd rfl (hpne hfl)
    · refine ⟨hno, removalStage_fs_mem m e f1 f2 wm p hin ?_ ?_⟩
      · cases hcm : pathUnder m p with
        | false => rfl
        | true => rw [hmt p hcm] at hno; cases hno
      · cases hce : pathUnder e p with
        | false => rfl
        | true => rw [het p hce] at hno; cases hno
  have hent2 : ∀ p ∈ (removalStage m e f1 f2 wm).enterprise.worktrees,
      pathUnder t p = false ∧ p ∈ (removalStage m e f1 f2 wm).fs := by
    intro p hp
    obtain ⟨hpw, hpne⟩ := removalStage_ent_worktrees m e f1 f2 wm p hp
    rcases he p hpw with ⟨hfl, rfl⟩ | ⟨hno, hin⟩
    · exact absurd rfl (hpne hfl)
    · refine ⟨hno, removalStage_fs_mem m e f1 f2 wm p hin ?_ ?_⟩
      · cases hcm : pathUnder m p with
        | false => rfl
        | true => rw [hmt p hcm] at hno; cases hno
      · cases hce : pathUnder e p with
        | false => rfl
        | true => rw [het p hce] at hno; cases hno
  refine ⟨removeAllFS_not_contains_self t _, ?_, ?_, ?_, hf1, hf2, hf3, hf4, hf5, hf6⟩
  · intro p hp
    exact (mem_removeAllFS.mp hp).2
  · intro p hp
    obtain ⟨hpw, hpfs⟩ := pruneRepo_worktrees_spec p hp
    obtain ⟨hno, _⟩ := hmm2 p hpw
    exact List.elem_iff.mpr (mem_removeAllFS.mpr ⟨hpfs, hno⟩)
  · intro p hp
    obtain ⟨hpw, hpfs⟩ := pruneRepo_worktrees_spec p hp
    obtain ⟨hno, _⟩ := hent2 p hpw
    exact List.elem_iff.mpr (mem_removeAllFS.mpr ⟨hpfs, hno⟩)

/-- With every effectful step succeeding, a fresh target directory and a
resolvable branch/base in each repository, dual-worktree creation succeeds. -/
theorem create_succeeds (mc : MattermostConfig) (ora : CreateOracle) (w : World)
    (branch baseBranch : String)
    (hora : allOk ora)
    (htarget : w.fs.contains (GetMattermostWorktreePath mc branch) = false)
    (hmm : branchResolvable w.mattermost branch (effectiveBase w baseBranch) = true)
    (hent : branchResolvable w.enterprise branch (effectiveBase w baseBranch) = true) :
    ∃ p, (CreateMattermostDualWorktree mc ora w branch baseBranch).2 = Except.ok p := by
  obtain ⟨h1, h2, h3, h4, h5, h6⟩ := hora
  have hmm' : branchResolvable (pruneRepo w.fs w.mattermost) branch
      (if baseBranch = "" then (pruneRepo w.fs w.mattermost).defaultBranch else baseBranch) =
      true := by
    simpa [branchResolvable, checkBranchExists, checkRemoteBranchExists, pruneRepo,
      effectiveBase] using hmm
  have hent' : branchResolvable (pruneRepo w.fs w.enterprise) branch
      (if baseBranch = "" then (pruneRepo w.fs w.mattermost).defaultBranch else baseBranch) =
      true := by
    simpa [branchResolvable, checkBranchExists, checkRemoteBranchExists, pruneRepo,
      effectiveBase] using hent
  obtain ⟨b1, hc1⟩ := @createWorktreeForRepo_ok
    (mkdirFS (GetMattermostWorktreePath mc branch) w.fs)
    (pruneRepo w.fs w.mattermost) "mattermost" branch
    (if baseBranch = "" then (pruneRepo w.fs w.mattermost).defaultBranch else baseBranch)
    (GetMattermostWorktreePath mc branch ++ "/" ++
      ("mattermost-" ++ SanitizeBranchName branch)) hmm'
  obtain ⟨b2, hc2⟩ := @createWorktreeForRepo_ok
    (mkdirFS (GetMattermostWorktreePath mc branch ++ "/" ++
      ("mattermost-" ++ SanitizeBranchName branch))
      (mkdirFS (GetMattermostWorktreePath mc branch) w.fs))
    (pruneRepo w.fs w.enterprise) "enterprise" branch
    (if baseBranch = "" then (pruneRepo w.fs w.mattermost).defaultBranch else baseBranch)
    (GetMattermostWorktreePath mc branch ++ "/" ++
      ("enterprise-" ++ SanitizeBranchName branch)) hent'
  refine ⟨GetMattermostWorktreePath mc branch, ?_⟩
  simp only [CreateMattermostDualWorktree, htarget, h1, h2, h3, h4, h5, h6,
    Bool.not_true, Bool.false_eq_true, if_false, ite_false, ite_true, hc1, hc2]

/-- Every failing run of `CreateMattermostDualWorktree` on a fresh target
directory ends in the `cleanup` closure, called with flags that exactly match
the units registered in the mid-state, whose bookkeeping and branch state
relate to the initial world as stated. -/
theorem create_fail_shape (mc : MattermostConfig) (ora : CreateOracle) (w : World)
    (branch baseBranch : String)
    (htarget : w.fs.contains (GetMattermostWorktreePath mc branch) = false)
    (hsub : ∀ p ∈ w.fs, pathUnder (GetMattermostWorktreePath mc branch) p = false)
    (hfail : exceptIsOk (CreateMattermostDualWorktree mc ora w branch baseBranch).2 = false) :
    ∃ (f1 f2 : Bool) (wm : World),
      (CreateMattermostDualWorktree mc ora w branch baseBranch).1 =
        cleanupCreate (GetMattermostWorktreePath mc branch)
          (GetMattermostWorktreePath mc branch ++ "/" ++
            ("mattermost-" ++ SanitizeBranchName branch))
          (GetMattermostWorktreePath mc branch ++ "/" ++
            ("enterprise-" ++ SanitizeBranchName branch)) f1 f2 wm ∧
      (∀ p ∈ wm.mattermost.worktrees,
        (f1 = true ∧ p = GetMattermostWorktreePath mc branch ++ "/" ++
          ("mattermost-" ++ SanitizeBranchName branch)) ∨
        (pathUnder (GetMattermostWorktreePath mc branch) p = false ∧ p ∈ wm.fs)) ∧
      (∀ p ∈ wm.enterprise.worktrees,
        (f2 = true ∧ p = GetMattermostWorktreePath mc branch ++ "/" ++
          ("enterprise-" ++ SanitizeBranchName branch)) ∨
        (pathUnder (GetMattermostWorktreePath mc branch) p = false ∧ p ∈ wm.fs)) ∧
      (wm.mattermost.localBranches = w.mattermost.localBranches ∨
        wm.mattermost.localBranches = w.mattermost.localBranches ++ [branch]) ∧
      wm.mattermost.remoteBranches = w.mattermost.remoteBranches ∧
      wm.mattermost.defaultBranch = w.mattermost.defaultBranch ∧
      (wm.enterprise.localBranches = w.enterprise.localBranches ∨
        wm.enterprise.localBranches = w.enterprise.localBranches ++ [branch]) ∧
      wm.enterprise.remoteBranches = w.enterprise.remoteBranches ∧
      wm.enterprise.defaultBranch = w.enterprise.defaultBranch := by
  have hpruned : ∀ (r : RepoState) (fs' : FS), (∀ q ∈ w.fs, q ∈ fs') →
      ∀ p ∈ (pruneRepo w.fs r).worktrees,
        pathUnder (GetMattermostWorktreePath mc branch) p = false ∧ p ∈ fs' := by
    intro r fs' hsup p hp
    obtain ⟨hw, hfs⟩ := pruneRepo_worktrees_spec p hp
    exact ⟨hsub p hfs, hsup p hfs⟩
  simp only [CreateMattermostDualWorktree, htarget, Bool.false_eq_true, if_false,
    ite_false] at hfail ⊢
  cases hcb : ora.copyBaseOk with
  | false =>
      simp only [hcb, Bool.not_false, ite_true, if_true] at hfail ⊢
      refine ⟨false, false, _, rfl, ?_, ?_, Or.inl rfl, rfl, rfl, Or.inl rfl, rfl, rfl⟩
      · intro p hp
        exact Or.inr (hpruned _ _ (fun q hq => mem_mkdirFS_of_mem hq) p hp)
      · intro p hp
        exact Or.inr (hpruned _ _ (fun q hq => mem_mkdirFS_of_mem hq) p hp)
  | true =>
    simp only [hcb, Bool.not_true, Bool.false_eq_true, ite_false, if_false] at hfail ⊢
    cases hA : createWorktreeForRepo ora.addMattermostOk
        (mkdirFS (GetMattermostWorktreePath mc branch) w.fs) (pruneRepo w.fs w.mattermost)
        "mattermost" branch
        (if baseBranch = "" then (pruneRepo w.fs w.mattermost).defaultBranch else baseBranch)
        (GetMattermostWorktreePath mc branch ++ "/" ++
          ("mattermost-" ++ SanitizeBranchName branch)) with
    | error e =>
        simp only [hA] at hfail ⊢
        refine ⟨false, false, _, rfl, ?_, ?_, Or.inl rfl, rfl, rfl, Or.inl rfl, rfl, rfl⟩
        · intro p hp
          exact Or.inr (hpruned _ _ (fun q hq => mem_mkdirFS_of_mem hq) p hp)
        · intro p hp
          exact Or.inr (hpruned _ _ (fun q hq => mem_mkdirFS_of_mem hq) p hp)
    | ok pr =>
      obtain ⟨b1, hsh⟩ := createWorktreeForRepo_ok_shape hA
      subst hsh
      simp only [hA] at hfail ⊢
      cases hB : createWorktreeForRepo ora.addEnterpriseOk
          (mkdirFS (GetMattermostWorktreePath mc branch ++ "/" ++
            ("mattermost-" ++ SanitizeBranchName branch))
            (mkdirFS (GetMattermostWorktreePath mc branch) w.fs))
          (pruneRepo w.fs w.enterprise) "enterprise" branch
          (if baseBranch = "" then (pruneRepo w.fs w.mattermost).defaultBranch else baseBranch)
          (GetMattermostWorktreePath mc branch ++ "/" ++
            ("enterprise-" ++ SanitizeBranchName branch)) with
      | error e =>
          simp only [hB] at hfail ⊢
          refine ⟨true, false, _, rfl, ?_, ?_,
            registerWorktree_local_cases _ _ _ _, rfl, rfl, Or.inl rfl, rfl, rfl⟩
          · intro p hp
            rw [registerWorktree_worktrees] at hp
            rcases List.mem_append.mp hp with hp | hp
            · exact Or.inr (hpruned _ _
                (fun q hq => mem_mkdirFS_of_mem (mem_mkdirFS_of_mem hq)) p hp)
            · exact Or.inl ⟨rfl, List.mem_singleton.mp hp⟩
          · intro p hp
            exact Or.inr (hpruned _ _
              (fun q hq => mem_mkdirFS_of_mem (mem_mkdirFS_of_mem hq)) p hp)
      | ok pr2 =>
        obtain ⟨b2, hsh2⟩ := createWorktreeForRepo_ok_shape hB
        subst hsh2
        simp only [hB] at hfail ⊢
        have hinvM : ∀ p ∈ (registerWorktree (pruneRepo w.fs w.mattermost) branch b1
            (GetMattermostWorktreePath mc branch ++ "/" ++
              ("mattermost-" ++ SanitizeBranchName branch))).worktrees,
            ∀ (fs' : FS), (∀ q ∈ w.fs, q ∈ fs') →
            (p = GetMattermostWorktreePath mc branch ++ "/" ++
              ("mattermost-" ++ SanitizeBranchName branch)) ∨
            (pathUnder (GetMattermostWorktreePath mc branch) p = false ∧ p ∈ fs') := by
          intro p hp fs' hsup
          rw [registerWorktree_worktrees] at hp
          rcases List.mem_append.mp hp with hp | hp
          · exact Or.inr (hpruned _ _ hsup p hp)
          · exact Or.inl (List.mem_singleton.mp hp)
        have hinvE : ∀ p ∈ (registerWorktree (pruneRepo w.fs w.enterprise) branch b2
            (GetMattermostWorktreePath mc branch ++ "/" ++
              ("enterprise-" ++ SanitizeBranchName branch))).worktrees,
            ∀ (fs' : FS), (∀ q ∈ w.fs, q ∈ fs') →
            (p = GetMattermostWorktreePath mc branch ++ "/" ++
              ("enterprise-" ++ SanitizeBranchName branch)) ∨
            (pathUnder (GetMattermostWorktreePath mc branch) p = false ∧ p ∈ fs') := by
          intro p hp fs' hsup
          rw [registerWorktree_worktrees] at hp
          rcases List.mem_append.mp hp with hp | hp
          · exact Or.inr (hpruned _ _ hsup p hp)
          · exact Or.inl (List.mem_singleton.mp hp)
        cases hs1 : ora.symlinkMattermostOk with
        | false =>
            simp only [hs1, Bool.not_false, ite_true, if_true] at hfail ⊢
            refine ⟨true, true, _, rfl, ?_, ?_,
              registerWorktree_local_cases _ _ _ _, rfl, rfl,
              registerWorktree_local_cases _ _ _ _, rfl, rfl⟩
            · intro p hp
              rcases hinvM p hp _
                  (fun q hq => mem_mkdirFS_of_mem
                    (mem_mkdirFS_of_mem (mem_mkdirFS_of_mem hq)))
                with hpe | hr
              · exact Or.inl ⟨rfl, hpe⟩
              · exact Or.inr hr
            · intro p hp
              rcases hinvE p hp _
                  (fun q hq => mem_mkdirFS_of_mem
                    (mem_mkdirFS_of_mem (mem_mkdirFS_of_mem hq)))
                with hpe | hr
              · exact Or.inl ⟨rfl, hpe⟩
              · exact Or.inr hr
        | true =>
          simp only [hs1, Bool.not_true, Bool.false_eq_true, ite_false, if_false] at hfail ⊢
          cases hs2 : ora.symlinkEnterpriseOk with
          | false =>
              simp only [hs2, Bool.not_false, ite_true, if_true] at hfail ⊢
              refine ⟨true, true, _, rfl, ?_, ?_,
                registerWorktree_local_cases _ _ _ _, rfl, rfl,
                registerWorktree_local_cases _ _ _ _, rfl, rfl⟩
              · intro p hp
                rcases hinvM p hp _
                    (fun q hq => mem_mkdirFS_of_mem (mem_mkdirFS_of_mem
                      (mem_mkdirFS_of_mem (mem_mkdirFS_of_mem hq))))
                  with hpe | hr
                · exact Or.inl ⟨rfl, hpe⟩
                · exact Or.inr hr
              · intro p hp
                rcases hinvE p hp _
                    (fun q hq => mem_mkdirFS_of_mem (mem_mkdirFS_of_mem
                      (mem_mkdirFS_of_mem (mem_mkdirFS_of_mem hq))))
                  with hpe | hr
                · exact Or.inl ⟨rfl, hpe⟩
                · exact Or.inr hr
          | true =>
            simp only [hs2, Bool.not_true, Bool.false_eq_true, ite_false, if_false] at hfail ⊢
            cases hcm : ora.copyMappedOk with
            | false =>
                simp only [hcm, Bool.not_false, ite_true, if_true] at hfail ⊢
                refine ⟨true, true, _, rfl, ?_, ?_,
                  registerWorktree_local_cases _ _ _ _, rfl, rfl,
                  registerWorktree_local_cases _ _ _ _, rfl, rfl⟩
                · intro p hp
                  rcases hinvM p hp _
                      (fun q hq => mem_mkdirFS_of_mem (mem_mkdirFS_of_mem
                        (mem_mkdirFS_of_mem (mem_mkdirFS_of_mem (mem_mkdirFS_of_mem hq)))))
                    with hpe | hr
                  · exact Or.inl ⟨rfl, hpe⟩
                  · exact Or.inr hr
                · intro p hp
                  rcases hinvE p hp _
                      (fun q hq => mem_mkdirFS_of_mem (mem_mkdirFS_of_mem
                        (mem_mkdirFS_of_mem (mem_mkdirFS_of_mem (mem_mkdirFS_of_mem hq)))))
                    with hpe | hr
                  · exact Or.inl ⟨rfl, hpe⟩
                  · exact Or.inr hr
            | true =>
                simp only [hcm, Bool.not_true, Bool.false_eq_true, ite_false, if_false,
                  exceptIsOk] at hfail
                exact Bool.noConfusion hfail

/-- Claim C2: For every failure at any step after the logical worktree
directory has been created — base-file copy, primary unit creation,
companion unit creation, symlink creation, mapped-file copy — dual-worktree
creation returns an error and afterwards: the logical worktree directory
does not exist, nothing under it exists, every bookkeeping entry of either
repository points at a still-existing path outside the removed directory,
and a subsequent creation call for the same branch (with the effectful
steps succeeding and the branch or its effective base materializable in
each repository) succeeds. -/
theorem create_rollback_and_retry (mc : MattermostConfig) (ora : CreateOracle) (w : World)
    (branch baseBranch : String)
    (htarget : w.fs.contains (GetMattermostWorktreePath mc branch) = false)
    (hsub : ∀ p ∈ w.fs, pathUnder (GetMattermostWorktreePath mc branch) p = false)
    (hfail : exceptIsOk (CreateMattermostDualWorktree mc ora w branch baseBranch).2 = false) :
    ((CreateMattermostDualWorktree mc ora w branch baseBranch).1.fs.contains
        (GetMattermostWorktreePath mc branch) = false) ∧
    (∀ p ∈ (CreateMattermostDualWorktree mc ora w branch baseBranch).1.fs,
        pathUnder (GetMattermostWorktreePath mc branch) p = false) ∧
    (∀ p ∈ (CreateMattermostDualWorktree mc ora w branch baseBranch).1.mattermost.worktrees,
        (CreateMattermostDualWorktree mc ora w branch baseBranch).1.fs.contains p = true) ∧
    (∀ p ∈ (CreateMattermostDualWorktree mc ora w branch baseBranch).1.enterprise.worktrees,
        (CreateMattermostDualWorktree mc ora w branch baseBranch).1.fs.contains p = true) ∧
    (∀ ora' : CreateOracle, allOk ora' →
      branchResolvable w.mattermost branch (effectiveBase w baseBranch) = true →
      branchResolvable w.enterprise branch (effectiveBase w baseBranch) = true →
      ∃ createdPath,
        (CreateMattermostDualWorktree mc ora'
          (CreateMattermostDualWorktree mc ora w branch baseBranch).1
          branch baseBranch).2 = Except.ok createdPath) := by
  obtain ⟨f1, f2, wm, heq, hm, he, hlm, hrm, hdm, hle, hre, hde⟩ :=
    create_fail_shape mc ora w branch baseBranch htarget hsub hfail
  obtain ⟨c1, c2, c3, c4, d1, d2, d3, d4, d5, d6⟩ :=
    cleanup_spec (GetMattermostWorktreePath mc branch)
      (GetMattermostWorktreePath mc branch ++ "/" ++
        ("mattermost-" ++ SanitizeBranchName branch))
      (GetMattermostWorktreePath mc branch ++ "/" ++
        ("enterprise-" ++ SanitizeBranchName branch)) f1 f2 wm hm he
      (fun p h => pathUnder_trans_child _ h)
      (fun p h => pathUnder_trans_child _ h)
  rw [heq]
  refine ⟨c1, c2, c3, c4, ?_⟩
  intro ora' hora' hrmm hrent
  have hdefm : (cleanupCreate (GetMattermostWorktreePath mc branch)
      (GetMattermostWorktreePath mc branch ++ "/" ++
        ("mattermost-" ++ SanitizeBranchName branch))
      (GetMattermostWorktreePath mc branch ++ "/" ++
        ("enterprise-" ++ SanitizeBranchName branch)) f1 f2 wm).mattermost.defaultBranch =
      w.mattermost.defaultBranch := d3.trans hdm
  have heb : effectiveBase (cleanupCreate (GetMattermostWorktreePath mc branch)
      (GetMattermostWorktreePath mc branch ++ "/" ++
        ("mattermost-" ++ SanitizeBranchName branch))
      (GetMattermostWorktreePath mc branch ++ "/" ++
        ("enterprise-" ++ SanitizeBranchName branch)) f1 f2 wm) baseBranch =
      effectiveBase w baseBranch := by
    unfold effectiveBase
    rw [hdefm]
  have hresM : branchResolvable (cleanupCreate (GetMattermostWorktreePath mc branch)
      (GetMattermostWorktreePath mc branch ++ "/" ++
        ("mattermost-" ++ SanitizeBranchName branch))
      (GetMattermostWorktreePath mc branch ++ "/" ++
        ("enterprise-" ++ SanitizeBranchName branch)) f1 f2 wm).mattermost branch
      (effectiveBase w baseBranch) = true := by
    refine branchResolvable_mono hrmm ?_ (d2.trans hrm)
    rcases hlm with h | h
    · exact Or.inl (d1.trans h)
    · exact Or.inr (d1.trans h)
  have hresE : branchResolvable (cleanupCreate (GetMattermostWorktreePath mc branch)
      (GetMattermostWorktreePath mc branch ++ "/" ++
        ("mattermost-" ++ SanitizeBranchName branch))
      (GetMattermostWorktreePath mc branch ++ "/" ++
        ("enterprise-" ++ SanitizeBranchName branch)) f1 f2 wm).enterprise branch
      (effectiveBase w baseBranch) = true := by
    refine branchResolvable_mono hrent ?_ (d5.trans hre)
    rcases hle with h | h
    · exact Or.inl (d4.trans h)
    · exact Or.inr (d4.trans h)
  rw [← heb] at hresM hresE
  exact create_succeeds mc ora' _ branch baseBranch hora' c1 hresM hresE

/-- Witness for C2: a concrete failing creation (mapped-file copy fails after
both units were created) rolls back fully and the retry succeeds. -/
theorem create_rollback_and_retry_witness :
    (wEx.fs.contains (GetMattermostWorktreePath mcEx "hotfix") = false) ∧
    (∀ p ∈ wEx.fs, pathUnder (GetMattermostWorktreePath mcEx "hotfix") p = false) ∧
    (exceptIsOk (CreateMattermostDualWorktree mcEx oraFailMapped wEx "hotfix" "").2 = false) ∧
    ((CreateMattermostDualWorktree mcEx oraFailMapped wEx "hotfix" "").1.fs.contains
        (GetMattermostWorktreePath mcEx "hotfix") = false) ∧
    (∀ p ∈ (CreateMattermostDualWorktree mcEx oraFailMapped wEx "hotfix" "").1.fs,
        pathUnder (GetMattermostWorktreePath mcEx "hotfix") p = false) ∧
    (∀ p ∈ (CreateMattermostDualWorktree mcEx oraFailMapped wEx "hotfix" "").1.mattermost.worktrees,
        (CreateMattermostDualWorktree mcEx oraFailMapped wEx "hotfix" "").1.fs.contains p = true) ∧
    (∀ p ∈ (CreateMattermostDualWorktree mcEx oraFailMapped wEx "hotfix" "").1.enterprise.worktrees,
        (CreateMattermostDualWorktree mcEx oraFailMapped wEx "hotfix" "").1.fs.contains p = true) ∧
    (∀ ora' : CreateOracle, allOk ora' →
      branchResolvable wEx.mattermost "hotfix" (effectiveBase wEx "") = true →
      branchResolvable wEx.enterprise "hotfix" (effectiveBase wEx "") = true →
      ∃ createdPath,
        (CreateMattermostDualWorktree mcEx ora'
          (CreateMattermostDualWorktree mcEx oraFailMapped wEx "hotfix" "").1
          "hotfix" "").2 = Except.ok createdPath) := by
  have h := create_rollback_and_retry mcEx oraFailMapped wEx "hotfix" ""
    (by decide) (by decide) (by decide)
  exact ⟨by decide, by decide, by decide, h.1, h.2.1, h.2.2.1, h.2.2.2.1, h.2.2.2.2⟩

/-- Witness for C3 on a concrete world containing the `feat-x` worktree. -/
theorem checkout_existing_idempotent_witness :
    isGitRepoFS wC10.fs mcEx.MattermostPath = true ∧
    isGitRepoFS wC10.fs mcEx.EnterprisePath = true ∧
    wC10.fs.contains mcEx.WorktreeBasePath = true ∧
    wC10.fs.contains (GetMattermostWorktreePath mcEx "feat-x") = true ∧
    RunMattermostCheckout mcEx oraAllOk (0, 0) wC10 "feat-x" "" 0 0 =
      (wC10, [CDMarker ++ GetMattermostWorktreePath mcEx "feat-x"], Except.ok ()) :=
  ⟨by decide, by decide, by decide, by decide,
   checkout_existing_idempotent mcEx oraAllOk (0, 0) wC10 "feat-x" "" 0 0
     (by decide) (by decide) (by decide) (by decide)⟩

end WT
